import Mathlib

/-!
Verification development for the `py_simple_sql` repository
(`dbquery`: query builder, placeholder translator, transaction layer).

The Python source is embedded shallowly:

* Python values bound as query parameters are the inductive `Value`;
  Python's `None` is `Value.null`.
* `QueryBuilder` is a record of the instance attributes set in
  `QueryBuilder.__init__`; each fluent method is a function
  `QueryBuilder → ... → QueryBuilder`.
* Raising an exception is `Except String`; a backend connection is an
  oracle record `Backend`, and operations that talk to the backend return
  the list of backend calls they issued (`DbCall`) next to their result
  and the final builder state.
* `DB._convert_placeholders` is a character scan carrying the same state
  as the Python loop (`in_string`, `string_char`, `in_identifier`,
  previous character).
* The connection classes' transaction counters are step functions
  `Int → TxOp → Int × List PhysOp` recording the physical operations
  that reach the database library.
-/

/-- A Python value as it appears in bindings and clause tuples.
`Value.null` is Python's `None`. -/
inductive Value where
  | null : Value
  | int (n : Int) : Value
  | str (s : String) : Value
  | bool (b : Bool) : Value
deriving DecidableEq, Repr

/-- Python `str(v)` as used by f-string interpolation. -/
def Value.pyStr : Value → String
  | .null => "None"
  | .int n => toString n
  | .str s => s
  | .bool b => if b then "True" else "False"

/-- Python `bool(v)` truthiness. -/
def Value.pyBool : Value → Bool
  | .null => false
  | .int n => n != 0
  | .str s => s != ""
  | .bool b => b

/-- One WHERE/HAVING clause tuple `(column, operator, value)` as stored by
`QueryBuilder`. The operator slot holds `Value.null` where Python stores
`None` (the `where_in`/`where_not_in` pre-rendered fragments). -/
abbrev Clause := String × Value × Value

/-- The mutable state of `dbquery.query_builder.QueryBuilder.__init__`.
`_table`, `_limit` and `_offset` start as Python `None` (`Option`). -/
structure QueryBuilder where
  mk ::
  _table : Option String
  _columns : List String
  _where_clauses : List Clause
  _bindings : List Value
  _join_clauses : List (String × String × String × String × String)
  _order_by_clauses : List (String × String)
  _limit : Option Value
  _offset : Option Value
  _group_by : List String
  _having_clauses : List Clause
deriving DecidableEq, Repr

/-- `QueryBuilder.__init__` (the connection is passed separately to the
methods that use it). -/
def QueryBuilder.init : QueryBuilder :=
  { _table := none
    _columns := ["*"]
    _where_clauses := []
    _bindings := []
    _join_clauses := []
    _order_by_clauses := []
    _limit := none
    _offset := none
    _group_by := []
    _having_clauses := [] }

/-- `QueryBuilder.table`. -/
def QueryBuilder.table (b : QueryBuilder) (tableName : String) : QueryBuilder :=
  { b with _table := some tableName }

/-- `QueryBuilder.select` (`if columns:` keeps the default on an empty call). -/
def QueryBuilder.select (b : QueryBuilder) (cols : List String) : QueryBuilder :=
  if cols = [] then b else { b with _columns := cols }

/-- `QueryBuilder.where`. The Python signature is
`where(column, operator_or_value, value=None)`; the two-argument call form
is the three-argument form with `value = None` (`Value.null`). -/
def QueryBuilder.where_ (b : QueryBuilder) (column : String)
    (operatorOrValue : Value) (value : Value) : QueryBuilder :=
  if value = Value.null then
    { b with _where_clauses := b._where_clauses ++ [(column, Value.str "=", operatorOrValue)]
             _bindings := b._bindings ++ [operatorOrValue] }
  else
    { b with _where_clauses := b._where_clauses ++ [(column, operatorOrValue, value)]
             _bindings := b._bindings ++ [value] }

/-- `QueryBuilder.where_in`. `placeholder` is
`self.connection.get_placeholder()`. -/
def QueryBuilder.where_in (b : QueryBuilder) (placeholder : String)
    (column : String) (values : List Value) : QueryBuilder :=
  if values = [] then b
  else
    let placeholders := String.intercalate ", " (List.replicate values.length placeholder)
    { b with _where_clauses := b._where_clauses ++ [(s!"{column} IN ({placeholders})", Value.null, Value.null)]
             _bindings := b._bindings ++ values }

/-- `QueryBuilder.where_not_in`. -/
def QueryBuilder.where_not_in (b : QueryBuilder) (placeholder : String)
    (column : String) (values : List Value) : QueryBuilder :=
  if values = [] then b
  else
    let placeholders := String.intercalate ", " (List.replicate values.length placeholder)
    { b with _where_clauses := b._where_clauses ++ [(s!"{column} NOT IN ({placeholders})", Value.null, Value.null)]
             _bindings := b._bindings ++ values }

/-- Python `str.lower()` (character-wise, as a list map so that it
evaluates inside the kernel). -/
def pyLower (s : String) : String := String.mk (s.data.map Char.toLower)

/-- `QueryBuilder.order_by` (`direction.lower()` is applied at call time). -/
def QueryBuilder.order_by (b : QueryBuilder) (column direction : String) : QueryBuilder :=
  { b with _order_by_clauses := b._order_by_clauses ++ [(column, pyLower direction)] }

/-- `QueryBuilder._add_join`. -/
def QueryBuilder._add_join (b : QueryBuilder)
    (type_ tbl first operator second : String) : QueryBuilder :=
  { b with _join_clauses := b._join_clauses ++ [(type_, tbl, first, operator, second)] }

/-- `QueryBuilder.join`. -/
def QueryBuilder.join (b : QueryBuilder) (tbl first operator second : String) : QueryBuilder :=
  b._add_join "inner" tbl first operator second

/-- `QueryBuilder.left_join`. -/
def QueryBuilder.left_join (b : QueryBuilder) (tbl first operator second : String) : QueryBuilder :=
  b._add_join "left" tbl first operator second

/-- `QueryBuilder.right_join`. -/
def QueryBuilder.right_join (b : QueryBuilder) (tbl first operator second : String) : QueryBuilder :=
  b._add_join "right" tbl first operator second

/-- `QueryBuilder.group_by`. -/
def QueryBuilder.group_by (b : QueryBuilder) (cols : List String) : QueryBuilder :=
  { b with _group_by := b._group_by ++ cols }

/-- `QueryBuilder.having` (same two/three-argument convention as `where`). -/
def QueryBuilder.having (b : QueryBuilder) (column : String)
    (operatorOrValue : Value) (value : Value) : QueryBuilder :=
  if value = Value.null then
    { b with _having_clauses := b._having_clauses ++ [(column, Value.str "=", operatorOrValue)]
             _bindings := b._bindings ++ [operatorOrValue] }
  else
    { b with _having_clauses := b._having_clauses ++ [(column, operatorOrValue, value)]
             _bindings := b._bindings ++ [value] }

/-- `QueryBuilder._build_where_clause`. Every clause Python ever appends is a
3-tuple, so the `len(clause) == 3` test is always true and only the
`operator is not None` branch can emit text: a clause whose operator is
`None` (a `where_in`/`where_not_in` fragment) contributes nothing. The
Python `else` branch (`where_parts.append(clause[0])`, commented as the
special `WHERE IN` case) is unreachable. -/
def QueryBuilder._build_where_clause (b : QueryBuilder) (placeholder : String) : String :=
  String.intercalate " AND "
    (b._where_clauses.filterMap (fun c =>
      let (column, operator, _) := c
      if operator ≠ Value.null then some s!"{column} {operator.pyStr} {placeholder}"
      else none))

/-- Python `int(v)` on the values for which `isinstance(v, int)` holds:
Python's `bool` is a subclass of `int`, so `True`/`False` count as the
integers `1`/`0`; `None` and strings are not ints (`none`). -/
def Value.asPyInt : Value → Option Int
  | .int n => some n
  | .bool b => some (if b then 1 else 0)
  | _ => none

/-- Python's f-string rendering of `self._table` (`None` when unset). -/
def QueryBuilder.tableStr (b : QueryBuilder) : String :=
  match b._table with
  | none => "None"
  | some t => t

/-- Whether `self._table` is falsy (`if not self._table`): `None` or `""`. -/
def QueryBuilder.tableFalsy (b : QueryBuilder) : Bool :=
  match b._table with
  | none => true
  | some t => t = ""

/-- The LIMIT/OFFSET sections of `QueryBuilder._build_select_query`:
append `" <kw> {int(v)}"` when `isinstance(v, int) and v >= 0` (Python's
`bool` is an `int`, so `limit(True)` renders ` LIMIT 1`), raise
`ValueError` when a value is present but fails that check. -/
def appendBound (kw : String) (v : Option Value) (q : String) : Except String String :=
  match v with
  | none => .ok q
  | some w =>
    match w.asPyInt with
    | some n =>
      if 0 ≤ n then .ok (q ++ s!" {kw} {n}")
      else .error s!"{kw} value must be a non-negative integer."
    | none => .error s!"{kw} value must be a non-negative integer."

/-- The LIMIT-then-OFFSET tail of `QueryBuilder._build_select_query`. -/
def finishBounds (limitV offsetV : Option Value) (q : String) (bindings : List Value) :
    Except String (String × List Value) :=
  match appendBound "LIMIT" limitV q with
  | .error e => .error e
  | .ok q6 =>
    match appendBound "OFFSET" offsetV q6 with
    | .error e => .error e
    | .ok q7 => .ok (q7, bindings)

/-- The JOIN-loop of `QueryBuilder._build_select_query`: the text appended
for one join clause (a join of an unknown kind appends nothing). -/
def renderJoin (jc : String × String × String × String × String) : String :=
  let (joinType, tbl, first, operator, second) := jc
  if joinType = "inner" then s!" JOIN {tbl} ON {first} {operator} {second}"
  else if joinType = "left" then s!" LEFT JOIN {tbl} ON {first} {operator} {second}"
  else if joinType = "right" then s!" RIGHT JOIN {tbl} ON {first} {operator} {second}"
  else ""

/-- `QueryBuilder._build_select_query`. Raising `ValueError` is `.error`;
the sections are appended in the source's order. -/
def QueryBuilder._build_select_query (b : QueryBuilder) (placeholder : String) :
    Except String (String × List Value) :=
  if b.tableFalsy then
    .error "Table name is required"
  else
    let columnsStr := String.intercalate ", " b._columns
    let q0 := s!"SELECT {columnsStr} FROM {b.tableStr}"
    let q1 := q0 ++ String.join (b._join_clauses.map renderJoin)
    let q2 :=
      if b._where_clauses ≠ [] then
        q1 ++ " WHERE " ++ b._build_where_clause placeholder
      else q1
    let q3 :=
      if b._group_by ≠ [] then
        q2 ++ " GROUP BY " ++ String.intercalate ", " b._group_by
      else q2
    let q4 :=
      if b._having_clauses ≠ [] then
        q3 ++ " HAVING " ++ String.intercalate " AND "
          (b._having_clauses.map (fun c =>
            let (column, operator, _) := c
            s!"{column} {operator.pyStr} {placeholder}"))
      else q3
    let q5 :=
      if b._order_by_clauses ≠ [] then
        q4 ++ " ORDER BY " ++ String.intercalate ", "
          (b._order_by_clauses.map (fun c => s!"{c.1} {c.2}"))
      else q4
    finishBounds b._limit b._offset q5 b._bindings

/-- `QueryBuilder.to_sql`. -/
def QueryBuilder.to_sql (b : QueryBuilder) (placeholder : String) :
    Except String (String × List Value) :=
  b._build_select_query placeholder

/-- A row returned by `fetch_one`/`fetch_all`: a Python dict. -/
abbrev Row := List (String × Value)

/-- One call issued to the `Connection` backend. -/
inductive DbCall where
  | execute (sql : String) (bindings : List Value) : DbCall
  | executeMany (sql : String) (bindingsList : List (List Value)) : DbCall
  | fetchOne (sql : String) (bindings : List Value) : DbCall
  | fetchAll (sql : String) (bindings : List Value) : DbCall
deriving DecidableEq, Repr

/-- The `Connection` backend as an oracle: what each physical call would
return (`.error` = the underlying driver raises). `placeholder` is
`get_placeholder()`. -/
structure Backend where
  placeholder : String
  fetchOneR : String → List Value → Except String (Option Row)
  fetchAllR : String → List Value → Except String (List Row)
  executeR : String → List Value → Except String Bool
  executeManyR : String → List (List Value) → Except String Bool

/-- Python `row[key]`: the value, or a raised `KeyError`. -/
def rowGetE (r : Row) (key : String) : Except String Value :=
  match r.find? (fun p => p.1 = key) with
  | some p => .ok p.2
  | none => .error s!"KeyError: {key}"

/-- `QueryBuilder.first`: saves `_limit`, forces it to `1`, builds and
fetches, and restores `_limit` only after `fetch_one` returns (there is no
`try/finally` in the source, so a raise leaves `_limit = 1`). -/
def QueryBuilder.first (b : QueryBuilder) (be : Backend) :
    Except String (Option Row) × QueryBuilder × List DbCall :=
  let originalLimit := b._limit
  let b1 := { b with _limit := some (Value.int 1) }
  match b1._build_select_query be.placeholder with
  | .error e => (.error e, b1, [])
  | .ok (sql, bindings) =>
    match be.fetchOneR sql bindings with
    | .error e => (.error e, b1, [.fetchOne sql bindings])
    | .ok result => (.ok result, { b1 with _limit := originalLimit }, [.fetchOne sql bindings])

/-- The column list `_aggregate` installs temporarily. -/
def aggregateColumns (function column : String) : List String :=
  [s!"{function}({column}) as aggregate"]

/-- `QueryBuilder._aggregate`: swaps `_columns`, builds and fetches, then
restores `_columns` and subscripts the row. A raise inside
`_build_select_query` or `fetch_one` propagates with `_columns` still
swapped; the `result["aggregate"]` subscript happens after the restore. -/
def QueryBuilder._aggregate (b : QueryBuilder) (be : Backend)
    (function column : String) :
    Except String Value × QueryBuilder × List DbCall :=
  let originalColumns := b._columns
  let b1 := { b with _columns := aggregateColumns function column }
  match b1._build_select_query be.placeholder with
  | .error e => (.error e, b1, [])
  | .ok (sql, bindings) =>
    match be.fetchOneR sql bindings with
    | .error e => (.error e, b1, [.fetchOne sql bindings])
    | .ok result =>
      let b2 := { b1 with _columns := originalColumns }
      match result with
      | none => (.error "TypeError: NoneType object is not subscriptable", b2, [.fetchOne sql bindings])
      | some row => (rowGetE row "aggregate", b2, [.fetchOne sql bindings])

/-- `QueryBuilder.count`. -/
def QueryBuilder.count (b : QueryBuilder) (be : Backend) (column : String) :
    Except String Value × QueryBuilder × List DbCall :=
  b._aggregate be "COUNT" column

/-- `QueryBuilder.max`. -/
def QueryBuilder.max (b : QueryBuilder) (be : Backend) (column : String) :
    Except String Value × QueryBuilder × List DbCall :=
  b._aggregate be "MAX" column

/-- `QueryBuilder.min`. -/
def QueryBuilder.min (b : QueryBuilder) (be : Backend) (column : String) :
    Except String Value × QueryBuilder × List DbCall :=
  b._aggregate be "MIN" column

/-- `QueryBuilder.avg`. -/
def QueryBuilder.avg (b : QueryBuilder) (be : Backend) (column : String) :
    Except String Value × QueryBuilder × List DbCall :=
  b._aggregate be "AVG" column

/-- `QueryBuilder.sum`. -/
def QueryBuilder.sum (b : QueryBuilder) (be : Backend) (column : String) :
    Except String Value × QueryBuilder × List DbCall :=
  b._aggregate be "SUM" column

/-- `QueryBuilder.exists`: swaps `_columns` to `["1"]`, wraps the built
SELECT, fetches, restores `_columns` and subscripts `exists_flag`. As in
`_aggregate`, a raise during build or fetch leaves `_columns` swapped. -/
def QueryBuilder.exists (b : QueryBuilder) (be : Backend) :
    Except String Bool × QueryBuilder × List DbCall :=
  let originalColumns := b._columns
  let b1 := { b with _columns := ["1"] }
  match b1._build_select_query be.placeholder with
  | .error e => (.error e, b1, [])
  | .ok (sql0, bindings) =>
    let sql := s!"SELECT EXISTS({sql0}) as exists_flag"
    match be.fetchOneR sql bindings with
    | .error e => (.error e, b1, [.fetchOne sql bindings])
    | .ok result =>
      let b2 := { b1 with _columns := originalColumns }
      match result with
      | none => (.error "TypeError: NoneType object is not subscriptable", b2, [.fetchOne sql bindings])
      | some row =>
        match rowGetE row "exists_flag" with
        | .error e => (.error e, b2, [.fetchOne sql bindings])
        | .ok v => (.ok v.pyBool, b2, [.fetchOne sql bindings])

/-- Lexicographic order on character lists by code point, as Python compares
strings. -/
def charListLe : List Char → List Char → Bool
  | [], _ => true
  | _ :: _, [] => false
  | x :: xs, y :: ys =>
    if x.toNat < y.toNat then true
    else if y.toNat < x.toNat then false
    else charListLe xs ys

/-- Python `s <= t` on strings. -/
def strLe (a b : String) : Bool := charListLe a.data b.data

/-- Stable insertion into a sorted list of strings. -/
def insertSorted (s : String) : List String → List String
  | [] => [s]
  | h :: t => if strLe s h then s :: h :: t else h :: insertSorted s t

/-- Python `sorted` on a list of strings. -/
def sortStrings (l : List String) : List String := l.foldr insertSorted []

/-- `tuple(sorted(row.keys()))` for a row. -/
def rowKey (r : Row) : List String := sortStrings (r.map Prod.fst)

/-- Python `row[col]` where `col` is known to be a key (grouping guarantees
it); a missing key yields `Value.null` in place of Python's `KeyError`,
which cannot arise on `insert`'s reachable inputs. -/
def rowGetD (r : Row) (key : String) : Value :=
  match r.find? (fun p => p.1 = key) with
  | some p => p.2
  | none => Value.null

/-- One step of the `defaultdict(list)` grouping loop in
`QueryBuilder.insert`: append `row` to the group keyed `key`, creating the
group at the end on first appearance (Python dicts iterate in insertion
order). -/
def addToGroups (key : List String) (row : Row) :
    List (List String × List Row) → List (List String × List Row)
  | [] => [(key, [row])]
  | (k, rs) :: rest =>
    if k = key then (k, rs ++ [row]) :: rest
    else (k, rs) :: addToGroups key row rest

/-- The grouping loop of `QueryBuilder.insert`, starting from groups `gs`. -/
def groupRowsFrom (gs : List (List String × List Row)) :
    List Row → List (List String × List Row)
  | [] => gs
  | r :: rest => groupRowsFrom (addToGroups (rowKey r) r gs) rest

/-- `grouped_data` after the loop in `QueryBuilder.insert`. -/
def groupRows (rows : List Row) : List (List String × List Row) :=
  groupRowsFrom [] rows

/-- The INSERT statement `QueryBuilder.insert` builds for one column group. -/
def insertSql (b : QueryBuilder) (placeholder : String) (columns : List String) : String :=
  let columnsStr := String.intercalate ", " columns
  let placeholders := String.intercalate ", " (List.replicate columns.length placeholder)
  s!"INSERT INTO {b.tableStr} ({columnsStr}) VALUES ({placeholders})"

/-- The per-group body of `QueryBuilder.insert`'s second loop: the backend
call it makes (`execute` for a single row, `execute_many` for several) and
that call's result, or `none` for a zero-column group (skipped with a
printed warning). -/
def insertGroupStep (b : QueryBuilder) (be : Backend) (g : List String × List Row) :
    Option (Except String Bool × DbCall) :=
  let (columns, rows) := g
  if columns = [] then none
  else
    let sql := insertSql b be.placeholder columns
    match rows with
    | [firstRow] =>
      let bindings := columns.map (rowGetD firstRow)
      some (be.executeR sql bindings, .execute sql bindings)
    | _ =>
      let bindingsList := rows.map (fun row => columns.map (rowGetD row))
      some (be.executeManyR sql bindingsList, .executeMany sql bindingsList)

/-- The argument of `QueryBuilder.insert`: one dict or a list of dicts. -/
inductive InsertData where
  | one (row : Row) : InsertData
  | many (rows : List Row) : InsertData

/-- One iteration of `QueryBuilder.insert`'s per-group loop, accumulating
results and backend calls; once a backend call raised, the remaining
groups are not executed (Python propagates the exception). -/
def insertStep (b : QueryBuilder) (be : Backend)
    (acc : Except String (List Bool) × List DbCall)
    (g : List String × List Row) : Except String (List Bool) × List DbCall :=
  match insertGroupStep b be g with
  | none => acc
  | some (res, call) =>
    match acc.1 with
    | .error e => (.error e, acc.2)
    | .ok results =>
      match res with
      | .error e => (.error e, acc.2 ++ [call])
      | .ok r => (.ok (results ++ [r]), acc.2 ++ [call])

/-- `QueryBuilder.insert` after the empty check and dict-wrapping: runs the
group loop and returns `all(results)`. -/
def QueryBuilder.insertRows (b : QueryBuilder) (be : Backend) (rows : List Row) :
    Except String Bool × List DbCall :=
  match (groupRows rows).foldl (insertStep b be) (.ok [], []) with
  | (.error e, calls) => (.error e, calls)
  | (.ok results, calls) => (.ok (results.all id), calls)

/-- `QueryBuilder.insert`: `if not data: return False` (both for the empty
dict and the empty list), wrap a single dict into a one-element list, then
group and execute. -/
def QueryBuilder.insert (b : QueryBuilder) (be : Backend) (data : InsertData) :
    Except String Bool × List DbCall :=
  match data with
  | .one row => if row = [] then (.ok false, []) else b.insertRows be [row]
  | .many rows => if rows = [] then (.ok false, []) else b.insertRows be rows

/-- The scanner state of `DB._convert_placeholders`: `in_string`,
`string_char`, `in_identifier`, and the output built so far. -/
structure ScanSt where
  inString : Bool
  stringChar : Option Char
  inIdentifier : Bool
  out : String
deriving DecidableEq, Repr

/-- The state at the top of the `while` loop in `DB._convert_placeholders`. -/
def ScanSt.init : ScanSt :=
  { inString := false, stringChar := none, inIdentifier := false, out := "" }

/-- One iteration of the `while` loop of `DB._convert_placeholders` on the
character `c`; `prev` is `query[i-1]` (`none` at `i == 0`). The branches
mirror the Python `if/elif/elif` chain exactly: note that the backtick
branch does not test `in_string`, so a backtick inside an active string
still toggles `in_identifier`. -/
def scanStep (st : ScanSt) (prev : Option Char) (c : Char) : ScanSt :=
  if (c = '\'' ∨ c = '"') ∧ prev ≠ some '\\' then
    if !st.inString then
      { st with inString := true, stringChar := some c, out := st.out.push c }
    else if st.stringChar = some c then
      { st with inString := false, out := st.out.push c }
    else
      { st with out := st.out.push c }
  else if c = '`' ∧ prev ≠ some '\\' then
    { st with inIdentifier := !st.inIdentifier, out := st.out.push c }
  else if c = '?' ∧ !st.inString ∧ !st.inIdentifier then
    { st with out := st.out ++ "%s" }
  else
    { st with out := st.out.push c }

/-- The `while` loop of `DB._convert_placeholders`, threading the previous
character. -/
def scanLoop (st : ScanSt) (prev : Option Char) : List Char → ScanSt
  | [] => st
  | c :: rest => scanLoop (scanStep st prev c) (some c) rest

/-- `DB._convert_placeholders(query)`: the identity for the sqlite driver,
otherwise the scan replacing bare `?` with the literal `%s`. -/
def DB._convert_placeholders (driver : String) (query : String) : String :=
  if driver = "sqlite" then query
  else (scanLoop ScanSt.init none query.data).out

/-- A logical transaction operation on a connection. -/
inductive TxOp where
  | beginOp : TxOp
  | commitOp : TxOp
  | rollbackOp : TxOp
deriving DecidableEq, Repr

/-- A physical operation reaching the database library. -/
inductive PhysOp where
  | physBegin : PhysOp
  | physCommit : PhysOp
  | physRollback : PhysOp
deriving DecidableEq, Repr

/-- `SQLiteConnection`'s (and `MySQLConnection`'s) transaction methods as a
step on `_transaction_level`, also yielding the physical operations issued:
`begin_transaction` increments and issues BEGIN at level 1; `commit` lowers
the level (clamped at 0 by `max`) and issues a physical commit whenever the
new level is 0; `rollback` resets the level to 0 and always issues one
physical rollback. -/
def sqliteStep (level : Int) : TxOp → Int × List PhysOp
  | .beginOp =>
    (level + 1, if level + 1 = 1 then [.physBegin] else [])
  | .commitOp =>
    let l := max 0 (level - 1)
    (l, if l = 0 then [.physCommit] else [])
  | .rollbackOp => (0, [.physRollback])

/-- `PostgreSQLConnection`'s transaction methods: `begin_transaction` and
`commit` behave as in `sqliteStep` (disabling/restoring autocommit plays
the physical BEGIN/COMMIT role); `rollback` issues a physical rollback and
resets the level only when the level is positive. -/
def pgStep (level : Int) : TxOp → Int × List PhysOp
  | .beginOp =>
    (level + 1, if level + 1 = 1 then [.physBegin] else [])
  | .commitOp =>
    let l := max 0 (level - 1)
    (l, if l = 0 then [.physCommit] else [])
  | .rollbackOp =>
    if 0 < level then (0, [.physRollback]) else (level, [])

/-- Run a sequence of logical transaction operations from `level`,
collecting every physical operation issued. -/
def runCounter (step : Int → TxOp → Int × List PhysOp) :
    Int → List TxOp → Int × List PhysOp
  | l, [] => (l, [])
  | l, op :: rest =>
    let s := step l op
    let r := runCounter step s.1 rest
    (r.1, s.2 ++ r.2)

/-- The trace of counter values (before each operation, then the final
value). -/
def counterLevels (step : Int → TxOp → Int × List PhysOp) :
    Int → List TxOp → List Int
  | l, [] => [l]
  | l, op :: rest => l :: counterLevels step (step l op).1 rest

/-- A logical-layer call made by `TransactionManager.transaction`. -/
inductive TxCall where
  | beginCall : TxCall
  | commitCall : TxCall
  | rollbackCall : TxCall
deriving DecidableEq, Repr

/-- `TransactionManager.transaction` as a function of the body's outcome:
`begin_transaction`, then the body; on normal completion `commit`, on an
exception `rollback` followed by re-raising the same exception
(`raise e`). The returned list is the sequence of logical connection calls
the coordinator makes. -/
def TransactionManager.transaction {ε α : Type} (body : Except ε α) :
    Except ε α × List TxCall :=
  match body with
  | .ok a => (.ok a, [.beginCall, .commitCall])
  | .error e => (.error e, [.beginCall, .rollbackCall])

/-- The keys (sorted column tuples) of a grouping, in insertion order. -/
def groupKeys (gs : List (List String × List Row)) : List (List String) :=
  gs.map Prod.fst

/-- The rows grouped under `k` (`[]` when `k` has no group). -/
def getGroup : List (List String × List Row) → List String → List Row
  | [], _ => []
  | (k0, rs) :: rest, k => if k0 = k then rs else getGroup rest k

/-- The backend call `QueryBuilder.insert` issues for one nonempty column
group: `execute` for a singleton group, `execute_many` otherwise, bindings
taken in the group's (sorted) column order. -/
def groupCall (b : QueryBuilder) (placeholder : String)
    (gr : List String × List Row) : DbCall :=
  match gr.2 with
  | [r] => .execute (insertSql b placeholder gr.1) (gr.1.map (rowGetD r))
  | rs => .executeMany (insertSql b placeholder gr.1) (rs.map (fun r => gr.1.map (rowGetD r)))

/-- A backend whose `execute`/`execute_many` never raise and answer through
the boolean oracles `f`/`g` (the shape of the mocked connection in the
repository's tests). -/
def mkBoolBackend (f : String → List Value → Bool)
    (g : String → List (List Value) → Bool) : Backend :=
  { placeholder := "?"
    fetchOneR := fun _ _ => .ok none
    fetchAllR := fun _ _ => .ok []
    executeR := fun s v => .ok (f s v)
    executeManyR := fun s vs => .ok (g s vs) }

/-- The boolean result the oracle backend gives to one group's call. -/
def groupResult (f : String → List Value → Bool)
    (g : String → List (List Value) → Bool)
    (b : QueryBuilder) (placeholder : String) (gr : List String × List Row) : Bool :=
  match groupCall b placeholder gr with
  | .execute s v => f s v
  | .executeMany s vs => g s vs
  | _ => false

/-- A backend that always answers rows (`aggregate`/`exists_flag`
present). -/
def beOkRow : Backend :=
  { placeholder := "?"
    fetchOneR := fun _ _ => .ok (some [("aggregate", Value.int 5), ("exists_flag", Value.int 1)])
    fetchAllR := fun _ _ => .ok []
    executeR := fun _ _ => .ok true
    executeManyR := fun _ _ => .ok true }

/-- A backend whose every call raises. -/
def beBoom : Backend :=
  { placeholder := "?"
    fetchOneR := fun _ _ => .error "boom"
    fetchAllR := fun _ _ => .error "boom"
    executeR := fun _ _ => .error "boom"
    executeManyR := fun _ _ => .error "boom" }

/-- Occurrences of a character in a string (used to count placeholder
tokens in a rendered statement). -/
def countChar (s : String) (c : Char) : Nat := s.data.count c

/-! ## Lemmas about the `insert` grouping loop -/

lemma groupKeys_addToGroups (k : List String) (r : Row) :
    ∀ gs, groupKeys (addToGroups k r gs) =
      if k ∈ groupKeys gs then groupKeys gs else groupKeys gs ++ [k] := by
  intro gs
  induction gs with
  | nil => simp [addToGroups, groupKeys]
  | cons g rest ih =>
    obtain ⟨k0, rs0⟩ := g
    by_cases h : k0 = k
    · subst h
      simp [addToGroups, groupKeys]
    · simp only [addToGroups, if_neg h, groupKeys, List.map_cons]
      simp only [groupKeys] at ih
      rw [ih]
      by_cases hm : k ∈ List.map Prod.fst rest
      · simp [hm, Ne.symm h]
      · simp [hm, Ne.symm h]

lemma nodup_groupKeys_addToGroups (k : List String) (r : Row) (gs : List (List String × List Row))
    (h : (groupKeys gs).Nodup) : (groupKeys (addToGroups k r gs)).Nodup := by
  rw [groupKeys_addToGroups]
  by_cases hm : k ∈ groupKeys gs
  · simpa [hm]
  · simpa [hm, List.nodup_append] using h

lemma nodup_groupKeys_groupRowsFrom :
    ∀ (rows : List Row) (gs : List (List String × List Row)),
      (groupKeys gs).Nodup → (groupKeys (groupRowsFrom gs rows)).Nodup := by
  intro rows
  induction rows with
  | nil => intro gs h; simpa [groupRowsFrom]
  | cons r rest ih =>
    intro gs h
    simp only [groupRowsFrom]
    exact ih _ (nodup_groupKeys_addToGroups _ _ _ h)

lemma getGroup_addToGroups (k k' : List String) (r : Row) :
    ∀ gs, getGroup (addToGroups k r gs) k' =
      if k' = k then getGroup gs k ++ [r] else getGroup gs k' := by
  intro gs
  induction gs with
  | nil =>
    by_cases h : k' = k <;> simp [addToGroups, getGroup, h, Ne.symm]
  | cons g rest ih =>
    obtain ⟨k0, rs0⟩ := g
    by_cases h0 : k0 = k
    · subst h0
      by_cases h : k' = k0
      · subst h
        simp [addToGroups, getGroup]
      · simp [addToGroups, getGroup, h, Ne.symm h]
    · by_cases h : k' = k
      · subst h
        simp [addToGroups, if_neg h0, getGroup, h0, Ne.symm h0, ih]
      · by_cases hk : k0 = k'
        · subst hk
          simp [addToGroups, if_neg h0, getGroup, h]
        · simp [addToGroups, if_neg h0, getGroup, hk, ih, h]

lemma getGroup_groupRowsFrom :
    ∀ (rows : List Row) (gs : List (List String × List Row)) (k : List String),
      getGroup (groupRowsFrom gs rows) k =
        getGroup gs k ++ rows.filter (fun r => rowKey r = k) := by
  intro rows
  induction rows with
  | nil => intro gs k; simp [groupRowsFrom]
  | cons r rest ih =>
    intro gs k
    simp only [groupRowsFrom]
    rw [ih, getGroup_addToGroups]
    by_cases h : rowKey r = k
    · subst h
      simp [List.filter_cons]
    · simp [List.filter_cons, h, Ne.symm h]

lemma getGroup_groupRows (rows : List Row) (k : List String) :
    getGroup (groupRows rows) k = rows.filter (fun r => rowKey r = k) := by
  simp [groupRows, getGroup_groupRowsFrom, getGroup]

lemma mem_groupKeys_groupRowsFrom :
    ∀ (rows : List Row) (gs : List (List String × List Row)) (k : List String),
      k ∈ groupKeys (groupRowsFrom gs rows) ↔ k ∈ groupKeys gs ∨ k ∈ rows.map rowKey := by
  intro rows
  induction rows with
  | nil => intro gs k; simp [groupRowsFrom]
  | cons r rest ih =>
    intro gs k
    simp only [groupRowsFrom]
    rw [ih, groupKeys_addToGroups]
    by_cases hm : rowKey r ∈ groupKeys gs
    · by_cases hk : k = rowKey r <;> simp [hm, hk]
    · by_cases hk : k = rowKey r <;> simp [hm, hk]

lemma mem_group_eq_getGroup :
    ∀ (gs : List (List String × List Row)) (k : List String) (rs : List Row),
      (groupKeys gs).Nodup → (k, rs) ∈ gs → getGroup gs k = rs := by
  intro gs
  induction gs with
  | nil => intro k rs _ h; simp at h
  | cons g rest ih =>
    intro k rs hnd hm
    obtain ⟨k0, rs0⟩ := g
    simp only [groupKeys, List.map_cons, List.nodup_cons] at hnd
    rcases List.mem_cons.mp hm with heq | htail
    · injection heq with h1 h2
      subst h1; subst h2
      simp [getGroup]
    · have hk0 : k0 ≠ k := by
        intro hkk
        subst hkk
        exact hnd.1 (List.mem_map_of_mem Prod.fst htail)
      simp only [getGroup, if_neg hk0]
      exact ih k rs hnd.2 htail

lemma insertGroupStep_boolBackend (f : String → List Value → Bool)
    (g : String → List (List Value) → Bool) (b : QueryBuilder)
    (gr : List String × List Row) :
    insertGroupStep b (mkBoolBackend f g) gr =
      if gr.1 = [] then none
      else some (.ok (groupResult f g b "?" gr), groupCall b "?" gr) := by
  obtain ⟨cols, rows⟩ := gr
  by_cases h : cols = []
  · simp [insertGroupStep, h]
  · rcases rows with _ | ⟨r, _ | ⟨r2, rest⟩⟩ <;>
      simp [insertGroupStep, groupCall, groupResult, mkBoolBackend, h]

lemma insert_foldl_boolBackend (f : String → List Value → Bool)
    (g : String → List (List Value) → Bool) (b : QueryBuilder) :
    ∀ (gs : List (List String × List Row)) (acc : List Bool) (calls : List DbCall),
      gs.foldl (insertStep b (mkBoolBackend f g)) (.ok acc, calls) =
        (.ok (acc ++ (gs.filter (fun gr => gr.1 ≠ [])).map (groupResult f g b "?")),
         calls ++ (gs.filter (fun gr => gr.1 ≠ [])).map (groupCall b "?")) := by
  intro gs
  induction gs with
  | nil => intro acc calls; simp
  | cons gr rest ih =>
    intro acc calls
    simp only [List.foldl_cons]
    by_cases h : gr.1 = []
    · have hstep : insertStep b (mkBoolBackend f g) (.ok acc, calls) gr = (.ok acc, calls) := by
        simp [insertStep, insertGroupStep_boolBackend, h]
      rw [hstep, ih]
      simp [List.filter_cons, h]
    · have hstep : insertStep b (mkBoolBackend f g) (.ok acc, calls) gr =
          (.ok (acc ++ [groupResult f g b "?" gr]), calls ++ [groupCall b "?" gr]) := by
        simp [insertStep, insertGroupStep_boolBackend, h]
      rw [hstep, ih]
      simp [List.filter_cons, h]

lemma insertRows_boolBackend (f : String → List Value → Bool)
    (g : String → List (List Value) → Bool) (b : QueryBuilder) (rows : List Row) :
    b.insertRows (mkBoolBackend f g) rows =
      (.ok ((((groupRows rows).filter (fun gr => gr.1 ≠ [])).map (groupResult f g b "?")).all id),
       ((groupRows rows).filter (fun gr => gr.1 ≠ [])).map (groupCall b "?")) := by
  simp only [QueryBuilder.insertRows]
  rw [insert_foldl_boolBackend]
  simp

/-! ## Lemmas about the transaction counters -/

lemma sqliteStep_nonneg (l : Int) (op : TxOp) (h : 0 ≤ l) : 0 ≤ (sqliteStep l op).1 := by
  cases op
  · simp only [sqliteStep]; omega
  · exact le_max_left 0 (l - 1)
  · simp [sqliteStep]

lemma pgStep_nonneg (l : Int) (op : TxOp) (h : 0 ≤ l) : 0 ≤ (pgStep l op).1 := by
  cases op
  · simp only [pgStep]; omega
  · exact le_max_left 0 (l - 1)
  · by_cases hl : 0 < l <;> simp [pgStep, hl]
    omega

lemma runCounter_nonneg (step : Int → TxOp → Int × List PhysOp)
    (hstep : ∀ l op, 0 ≤ l → 0 ≤ (step l op).1) :
    ∀ (ops : List TxOp) (l : Int), 0 ≤ l → 0 ≤ (runCounter step l ops).1 := by
  intro ops
  induction ops with
  | nil => intro l h; simpa [runCounter]
  | cons op rest ih =>
    intro l h
    simp only [runCounter]
    exact ih _ (hstep l op h)

lemma sqliteStep_begin (l : Int) :
    sqliteStep l .beginOp = (l + 1, if l = 0 then [.physBegin] else []) := by
  by_cases h : l = 0
  · subst h; simp [sqliteStep]
  · have h1 : ¬(l + 1 = 1) := by omega
    simp [sqliteStep, h, h1]

lemma sqliteStep_commit (l : Int) :
    sqliteStep l .commitOp = (max 0 (l - 1), if l ≤ 1 then [.physCommit] else []) := by
  by_cases h : l ≤ 1
  · have h0 : max 0 (l - 1) = 0 := max_eq_left (by omega)
    simp [sqliteStep, h0, h]
  · have h0 : max 0 (l - 1) = l - 1 := max_eq_right (by omega)
    have h1 : ¬(l - 1 = 0) := by omega
    simp [sqliteStep, h0, h1, h]

/-! ## Lemmas about the placeholder scanner -/

lemma scanStep_quote_toggle (st : ScanSt) (p : Option Char) (c : Char)
    (hq : c = '\'' ∨ c = '"') :
    ((scanStep st p c).inString ≠ st.inString) ↔
      (p ≠ some '\\' ∧ (st.inString = false ∨ st.stringChar = some c)) := by
  have hbt : c ≠ '`' := by rcases hq with h | h <;> subst h <;> decide
  have hqm : c ≠ '?' := by rcases hq with h | h <;> subst h <;> decide
  by_cases hp : p = some '\\'
  · have hcond : ¬((c = '\'' ∨ c = '"') ∧ p ≠ some '\\') := by simp [hp]
    simp [scanStep, hcond, hbt, hqm, hp]
  · have hcond : (c = '\'' ∨ c = '"') ∧ p ≠ some '\\' := ⟨hq, hp⟩
    by_cases hs : st.inString
    · by_cases hc : st.stringChar = some c
      · simp [scanStep, hcond, hs, hc, hp]
      · simp [scanStep, hcond, hs, hc, hp]
    · simp [scanStep, hcond, hs, hp]

/-! ## Claim theorems -/

/-- C10: passing `None` (`Value.null`) as `where`'s third argument is the
sentinel for the two-argument form, so `where(c, x, None)` — which in this
embedding literally is the two-argument call — forces the operator to
`"="` and binds `x` as the value; `having` behaves the same. Hence no
`where`/`having` predicate ever stores `None` as its bound value together
with an explicitly supplied operator. -/
theorem c10_where_null_value_is_two_arg_form :
    ∀ (b : QueryBuilder) (c : String) (x : Value),
      b.where_ c x Value.null =
        { b with _where_clauses := b._where_clauses ++ [(c, Value.str "=", x)]
                 _bindings := b._bindings ++ [x] } ∧
      b.having c x Value.null =
        { b with _having_clauses := b._having_clauses ++ [(c, Value.str "=", x)]
                 _bindings := b._bindings ++ [x] } := by
  intro b c x
  exact ⟨by simp [QueryBuilder.where_], by simp [QueryBuilder.having]⟩

/-- C5: for a body that completes normally, `TransactionManager.transaction`
calls `begin_transaction` then `commit` and never `rollback`; for a body
that raises, it calls `begin_transaction` then exactly one `rollback`,
never `commit`, and re-raises the same exception after the rollback. -/
theorem c5_transaction_rollback_exactly_once_on_error :
    ∀ (ε α : Type) (a : α) (e : ε),
      TransactionManager.transaction (.ok a : Except ε α) = (.ok a, [.beginCall, .commitCall]) ∧
      TransactionManager.transaction (.error e : Except ε α) = (.error e, [.beginCall, .rollbackCall]) ∧
      [TxCall.beginCall, TxCall.rollbackCall].count TxCall.rollbackCall = 1 ∧
      [TxCall.beginCall, TxCall.rollbackCall].count TxCall.commitCall = 0 ∧
      [TxCall.beginCall, TxCall.commitCall].count TxCall.rollbackCall = 0 := by
  intro ε α a e
  exact ⟨rfl, rfl, by decide, by decide, by decide⟩

/-- C4 counterexample: a `commit` call with the nesting counter at `0`
(sequence consisting of one `commit`) still issues a physical COMMIT
although the counter transitions 0 → 0, not 1 → 0, so "a physical COMMIT
is issued exactly when commit transitions the counter 1 to 0" is false as
stated. -/
theorem c4_counterexample_commit_at_zero :
    sqliteStep 0 .commitOp = (0, [.physCommit]) ∧ (0 : Int) ≠ 1 := by
  exact ⟨by decide, by decide⟩

/-- C4 (amended): the counter stays non-negative from 0 under every call
sequence; a physical BEGIN is issued exactly when `begin_transaction` sees
counter 0 (the 0→1 transition); a physical COMMIT is issued exactly when
`commit` is called with the counter at most 1 — i.e. whenever the
post-call counter is 0, which for balanced sequences is the 1→0
transition but also fires for a stray commit at 0; `rollback` resets the
counter to 0 and issues at most one physical rollback regardless of depth
(SQLite/MySQL always exactly one, PostgreSQL one only when the counter was
positive); two nested `transaction()` scopes produce the counter trace
0,1,2,1,0 with exactly one physical BEGIN/COMMIT pair. -/
theorem c4_amended_counter_behaviour :
    ∀ (l : Int) (ops : List TxOp),
      (0 ≤ (runCounter sqliteStep 0 ops).1 ∧ 0 ≤ (runCounter pgStep 0 ops).1) ∧
      sqliteStep l .beginOp = (l + 1, if l = 0 then [.physBegin] else []) ∧
      sqliteStep l .commitOp = (max 0 (l - 1), if l ≤ 1 then [.physCommit] else []) ∧
      sqliteStep l .rollbackOp = (0, [.physRollback]) ∧
      pgStep l .rollbackOp = (if 0 < l then (0, [.physRollback]) else (l, [])) ∧
      counterLevels sqliteStep 0 [.beginOp, .beginOp, .commitOp, .commitOp] = [0, 1, 2, 1, 0] ∧
      runCounter sqliteStep 0 [.beginOp, .beginOp, .commitOp, .commitOp] =
        (0, [.physBegin, .physCommit]) := by
  intro l ops
  exact ⟨⟨runCounter_nonneg _ sqliteStep_nonneg ops 0 le_rfl,
          runCounter_nonneg _ pgStep_nonneg ops 0 le_rfl⟩,
         sqliteStep_begin l, sqliteStep_commit l, rfl, rfl, by decide, by decide⟩

/-- C3: the scanner's backtick branch never tests `in_string`, so the lone
backtick inside the string literal of the query `'a`b' ?` toggles
identifier mode; the trailing bare `?` — which the claim (and the
repository's own test intent) requires to become `%s` — is left
untranslated: the mysql-driver output equals the input. -/
theorem c3_backtick_inside_string_toggles_identifier_mode :
    DB._convert_placeholders "mysql" "'a`b' ?" = "'a`b' ?" ∧
    DB._convert_placeholders "mysql" "'a`b' ?" ≠ "'a`b' %s" := by
  exact ⟨rfl, by decide⟩

/-- C9 counterexample: in `'a\\' ?` the closing quote is preceded by two
consecutive backslashes; the claim says such a quote (preceded only by an
*escaped* backslash) does toggle string mode, which would close the string
and translate the trailing `?` to `%s` — but the scanner only inspects the
single preceding character, so the quote does not toggle and the output is
unchanged. -/
theorem c9_counterexample_double_backslash_quote :
    DB._convert_placeholders "mysql" "'a\\\\' ?" = "'a\\\\' ?" ∧
    DB._convert_placeholders "mysql" "'a\\\\' ?" ≠ "'a\\\\' %s" := by
  exact ⟨rfl, by decide⟩

/-- C9 (amended): a single- or double-quote character toggles string mode
exactly when the immediately preceding character is not a backslash (the
scanner does not track whether that backslash is itself escaped, so a
quote after two consecutive backslashes does **not** toggle) and, when
already inside a string, only the opening delimiter closes it; in
particular the escaped quote in `'He\'s here?'` does not close the string
and its interior `?` stays untranslated. -/
theorem c9_amended_quote_toggle_rule :
    (∀ (st : ScanSt) (p : Option Char) (c : Char), (c = '\'' ∨ c = '"') →
      (((scanStep st p c).inString ≠ st.inString) ↔
        (p ≠ some '\\' ∧ (st.inString = false ∨ st.stringChar = some c)))) ∧
    DB._convert_placeholders "mysql" "'He\\'s here?'" = "'He\\'s here?'" ∧
    DB._convert_placeholders "mysql" "'a\\\\' ?" = "'a\\\\' ?" := by
  exact ⟨scanStep_quote_toggle, rfl, rfl⟩

/-- Witness for the C9 amended theorem at a concrete input: the opening
quote of a query (no previous character, scanner in its initial state)
does toggle string mode. -/
theorem c9_amended_witness :
    ((scanStep ScanSt.init none '\'').inString ≠ ScanSt.init.inString) ↔
      ((none : Option Char) ≠ some '\\' ∧
        (ScanSt.init.inString = false ∨ ScanSt.init.stringChar = some '\'')) :=
  c9_amended_quote_toggle_rule.1 ScanSt.init none '\'' (Or.inl rfl)

/-- C1: `where_in` stores its pre-rendered fragment `"id IN (?, ?)"` as a
triple with a null operator, but `_build_where_clause` skips every
null-operator triple (its fragment branch is dead code), so `to_sql`
renders a dangling `WHERE ` with the fragment absent — not the fragment
verbatim as the claim requires — while the bindings are still attached. -/
theorem c1_where_in_fragment_dropped :
    ((QueryBuilder.init.table "users").where_in "?" "id" [Value.int 1, Value.int 2])._where_clauses =
      [("id IN (?, ?)", Value.null, Value.null)] ∧
    ((QueryBuilder.init.table "users").where_in "?" "id" [Value.int 1, Value.int 2])._build_where_clause "?" = "" ∧
    ((QueryBuilder.init.table "users").where_in "?" "id" [Value.int 1, Value.int 2]).to_sql "?" =
      .ok ("SELECT * FROM users WHERE ", [Value.int 1, Value.int 2]) ∧
    ("SELECT * FROM users WHERE " : String) ≠ "SELECT * FROM users WHERE id IN (?, ?)" := by
  exact ⟨by decide, by decide, rfl, by decide⟩

/-- C2: after `where_in("id", [1, 2])` the rendered statement contains no
placeholder token at all while the binding sequence has length 2, so the
binding/placeholder correspondence the claim states is violated (same
root cause as C1: the IN fragment is dropped from the WHERE text but its
values were appended to the bindings). -/
theorem c2_bindings_exceed_placeholders :
    ((QueryBuilder.init.table "users").where_in "?" "id" [Value.int 1, Value.int 2]).to_sql "?" =
      .ok ("SELECT * FROM users WHERE ", [Value.int 1, Value.int 2]) ∧
    countChar "SELECT * FROM users WHERE " '?' = 0 ∧
    ([Value.int 1, Value.int 2] : List Value).length = 2 := by
  exact ⟨rfl, by decide, by decide⟩

/-! ## Lemmas about rendering validation -/

/-- C7 counterexample: `first` against a backend whose fetch raises leaves
`_limit` at the temporarily forced value `1` (the source restores it only
after `fetch_one` returns — there is no `try/finally`), so the claim that
the swapped state is restored before the error propagates is false. -/
theorem c7_counterexample_error_leaves_limit_swapped :
    ((QueryBuilder.init.table "users").first beBoom).1 = .error "boom" ∧
    ((QueryBuilder.init.table "users").first beBoom).2.1._limit = some (Value.int 1) ∧
    (QueryBuilder.init.table "users")._limit = none := by
  exact ⟨rfl, rfl, rfl⟩

/-- C7 (amended): the temporarily swapped builder state is restored on
every path on which the backend fetch *returns* (even when the returned
row is unusable), and the aggregates all delegate to `_aggregate`; but
when rendering or the fetch *raises*, the error propagates with the
swapped state left in place (`_columns` still the aggregate/exists column
list, `_limit` still `1`). -/
theorem c7_amended_swap_restored_only_on_return :
    ∀ (be : Backend) (b : QueryBuilder) (fn col : String),
      (∀ e, ({ b with _columns := aggregateColumns fn col } : QueryBuilder)._build_select_query
          be.placeholder = .error e →
        b._aggregate be fn col = (.error e, { b with _columns := aggregateColumns fn col }, [])) ∧
      (∀ sql bs e, ({ b with _columns := aggregateColumns fn col } : QueryBuilder)._build_select_query
          be.placeholder = .ok (sql, bs) →
        be.fetchOneR sql bs = .error e →
        b._aggregate be fn col =
          (.error e, { b with _columns := aggregateColumns fn col }, [.fetchOne sql bs])) ∧
      (∀ sql bs ro, ({ b with _columns := aggregateColumns fn col } : QueryBuilder)._build_select_query
          be.placeholder = .ok (sql, bs) →
        be.fetchOneR sql bs = .ok ro →
        (b._aggregate be fn col).2.1 = b) ∧
      (∀ e, ({ b with _columns := ["1"] } : QueryBuilder)._build_select_query
          be.placeholder = .error e →
        b.exists be = (.error e, { b with _columns := ["1"] }, [])) ∧
      (∀ sql bs e, ({ b with _columns := ["1"] } : QueryBuilder)._build_select_query
          be.placeholder = .ok (sql, bs) →
        be.fetchOneR (s!"SELECT EXISTS({sql}) as exists_flag") bs = .error e →
        b.exists be = (.error e, { b with _columns := ["1"] },
          [.fetchOne (s!"SELECT EXISTS({sql}) as exists_flag") bs])) ∧
      (∀ sql bs ro, ({ b with _columns := ["1"] } : QueryBuilder)._build_select_query
          be.placeholder = .ok (sql, bs) →
        be.fetchOneR (s!"SELECT EXISTS({sql}) as exists_flag") bs = .ok ro →
        (b.exists be).2.1 = b) ∧
      (∀ e, ({ b with _limit := some (Value.int 1) } : QueryBuilder)._build_select_query
          be.placeholder = .error e →
        b.first be = (.error e, { b with _limit := some (Value.int 1) }, [])) ∧
      (∀ sql bs e, ({ b with _limit := some (Value.int 1) } : QueryBuilder)._build_select_query
          be.placeholder = .ok (sql, bs) →
        be.fetchOneR sql bs = .error e →
        b.first be = (.error e, { b with _limit := some (Value.int 1) }, [.fetchOne sql bs])) ∧
      (∀ sql bs ro, ({ b with _limit := some (Value.int 1) } : QueryBuilder)._build_select_query
          be.placeholder = .ok (sql, bs) →
        be.fetchOneR sql bs = .ok ro →
        (b.first be).2.1 = b) ∧
      (b.count be col = b._aggregate be "COUNT" col ∧
       b.max be col = b._aggregate be "MAX" col ∧
       b.min be col = b._aggregate be "MIN" col ∧
       b.avg be col = b._aggregate be "AVG" col ∧
       b.sum be col = b._aggregate be "SUM" col) := by
  intro be b fn col
  refine ⟨?_, ?_, ?_, ?_, ?_, ?_, ?_, ?_, ?_, rfl, rfl, rfl, rfl, rfl⟩
  · intro e hbuild
    simp only [QueryBuilder._aggregate, hbuild]
  · intro sql bs e hbuild hfetch
    simp only [QueryBuilder._aggregate, hbuild, hfetch]
  · intro sql bs ro hbuild hfetch
    simp only [QueryBuilder._aggregate, hbuild, hfetch]
    cases ro with
    | none => rfl
    | some row => rfl
  · intro e hbuild
    simp only [QueryBuilder.exists, hbuild]
  · intro sql bs e hbuild hfetch
    simp only [QueryBuilder.exists, hbuild, hfetch]
  · intro sql bs ro hbuild hfetch
    simp only [QueryBuilder.exists, hbuild, hfetch]
    cases ro with
    | none => rfl
    | some row =>
      rcases h : rowGetE row "exists_flag" with e | v <;> simp only [h]
  · intro e hbuild
    simp only [QueryBuilder.first, hbuild]
  · intro sql bs e hbuild hfetch
    simp only [QueryBuilder.first, hbuild, hfetch]
  · intro sql bs ro hbuild hfetch
    simp only [QueryBuilder.first, hbuild, hfetch]

/-- Witness for the C7 amended theorem at concrete inputs: a raising
backend leaves the aggregate column swap in place, a returning backend
restores the builder exactly. -/
theorem c7_amended_witness :
    (QueryBuilder.init.table "users")._aggregate beBoom "COUNT" "*" =
      (.error "boom",
       { QueryBuilder.init.table "users" with _columns := aggregateColumns "COUNT" "*" },
       [.fetchOne "SELECT COUNT(*) as aggregate FROM users" []]) ∧
    ((QueryBuilder.init.table "users")._aggregate beOkRow "COUNT" "*").2.1 =
      QueryBuilder.init.table "users" := by
  refine ⟨(c7_amended_swap_restored_only_on_return beBoom (QueryBuilder.init.table "users")
      "COUNT" "*").2.1 "SELECT COUNT(*) as aggregate FROM users" [] "boom" rfl rfl,
    (c7_amended_swap_restored_only_on_return beOkRow (QueryBuilder.init.table "users")
      "COUNT" "*").2.2.1 "SELECT COUNT(*) as aggregate FROM users" []
      (some [("aggregate", Value.int 5), ("exists_flag", Value.int 1)]) rfl rfl⟩

/-- C8: `insert({})` and `insert([])` return `False` with no backend call;
for nonempty input, rows are grouped by their sorted column-name tuple
(group keys are pairwise distinct and each group holds exactly the input
rows with that key, in input order — one statement per distinct group);
against a non-raising backend, a singleton group goes through the
single-row `execute` path and a larger group through `execute_many`, each
row's bindings in the group's column order, a zero-column group is skipped
without being an error, and the returned value is the conjunction of all
group results. -/
theorem c8_insert_empty_noop_and_grouping :
    (∀ (be : Backend) (b : QueryBuilder),
      b.insert be (.one []) = (.ok false, []) ∧ b.insert be (.many []) = (.ok false, [])) ∧
    (∀ rows : List Row,
      (groupKeys (groupRows rows)).Nodup ∧
      (∀ k rs, (k, rs) ∈ groupRows rows → rs = rows.filter (fun r => rowKey r = k)) ∧
      (∀ k, k ∈ groupKeys (groupRows rows) ↔ k ∈ rows.map rowKey)) ∧
    (∀ (f : String → List Value → Bool) (g : String → List (List Value) → Bool)
        (b : QueryBuilder) (rows : List Row), rows ≠ [] →
      b.insert (mkBoolBackend f g) (.many rows) =
        (.ok ((((groupRows rows).filter (fun gr => gr.1 ≠ [])).map (groupResult f g b "?")).all id),
         ((groupRows rows).filter (fun gr => gr.1 ≠ [])).map (groupCall b "?"))) := by
  refine ⟨?_, ?_, ?_⟩
  · intro be b
    exact ⟨rfl, rfl⟩
  · intro rows
    have hnd : (groupKeys (groupRows rows)).Nodup :=
      nodup_groupKeys_groupRowsFrom rows [] (by simp [groupKeys])
    refine ⟨hnd, ?_, ?_⟩
    · intro k rs hm
      have h1 : getGroup (groupRows rows) k = rs := mem_group_eq_getGroup _ k rs hnd hm
      rw [← h1, getGroup_groupRows]
    · intro k
      have := mem_groupKeys_groupRowsFrom rows [] k
      simpa [groupRows, groupKeys] using this
  · intro f g b rows h
    simp only [QueryBuilder.insert, h, if_neg (by exact h)]
    rw [insertRows_boolBackend]
    simp

/-- Witness for the C8 theorem at concrete inputs: two rows with the same
column set `{a}` and one with `{a, b}` produce exactly two statements (an
`execute_many` for the pair, an `execute` for the singleton), and the
group of key `["a"]` is exactly the rows whose sorted keys are `["a"]`. -/
theorem c8_witness :
    ((QueryBuilder.init.table "users").insert
        (mkBoolBackend (fun _ _ => true) (fun _ _ => true))
        (.many [[("a", Value.int 1)], [("a", Value.int 2)], [("a", Value.int 3), ("b", Value.int 4)]]) =
      (.ok ((((groupRows [[("a", Value.int 1)], [("a", Value.int 2)], [("a", Value.int 3), ("b", Value.int 4)]]).filter
            (fun gr => gr.1 ≠ [])).map
          (groupResult (fun _ _ => true) (fun _ _ => true) (QueryBuilder.init.table "users") "?")).all id),
       ((groupRows [[("a", Value.int 1)], [("a", Value.int 2)], [("a", Value.int 3), ("b", Value.int 4)]]).filter
            (fun gr => gr.1 ≠ [])).map
          (groupCall (QueryBuilder.init.table "users") "?"))) ∧
    ([[("a", Value.int 1)], [("a", Value.int 2)]] =
      ([[("a", Value.int 1)], [("a", Value.int 2)], [("a", Value.int 3), ("b", Value.int 4)]].filter
        (fun r => rowKey r = ["a"]))) := by
  refine ⟨c8_insert_empty_noop_and_grouping.2.2 (fun _ _ => true) (fun _ _ => true)
      (QueryBuilder.init.table "users")
      [[("a", Value.int 1)], [("a", Value.int 2)], [("a", Value.int 3), ("b", Value.int 4)]]
      (by decide),
    c8_insert_empty_noop_and_grouping.2.1
      [[("a", Value.int 1)], [("a", Value.int 2)], [("a", Value.int 3), ("b", Value.int 4)]]
      |>.2.1 ["a"] [[("a", Value.int 1)], [("a", Value.int 2)]] (by decide)⟩
